import Mathlib

/-!
Verification of the Skoda Visualizer backend (`src/server.js`).

This file shallowly embeds the parts of the backend that the specification
talks about: prompt sanitization, data-URI creation (MIME selection), the
image-hosting fallback chain, the prediction polling loop, the in-memory
prediction result store with its per-id promise chaining, the prediction
status endpoint, the thumbnail metadata file handling, and the thumbnail
download/retry logic.  Asynchronous effects (file reads, HTTP requests,
timers) are modelled by passing in their outcomes explicitly; the JavaScript
event-loop semantics that matter for the per-id lock is modelled by a small
deterministic microtask/timer interpreter.
-/

namespace SkodaBackend

/-! ## Image Encoder: `createDataUri` and `uploadToReplicateCDN` (server.js 496-557)

The backend computes `path.extname(localFilePath).toLowerCase()` and maps
the extension to a MIME type with a chain of `if` statements.  `extname`
below models the posix behaviour of Node `path.extname`: the substring of
the basename from its last dot, where a lone leading dot (a dotfile) does
not count as an extension. -/

/-- Characters after the last `/`, i.e. the basename of a posix path. -/
def afterLastSlash (cs : List Char) : List Char :=
  cs.foldl (fun acc c => if c = '/' then [] else acc ++ [c]) []

/-- Whether a character list contains a dot. -/
def hasDot (cs : List Char) : Bool :=
  cs.any (fun c => c = '.')

/-- Characters strictly after the last dot (`none` when there is no dot). -/
def lastDotSuffix : List Char → Option (List Char)
  | [] => none
  | c :: cs =>
    match lastDotSuffix cs with
    | some t => some t
    | none => if c = '.' then some cs else none

/-- Extension of a basename: from the last dot, where a dot in head
position (a dotfile such as `.bashrc`) does not start an extension. -/
def extnameOfBase : List Char → List Char
  | [] => []
  | _ :: cs =>
    if hasDot cs then '.' :: (lastDotSuffix cs).getD []
    else []

/-- Model of Node `path.extname` (posix): basename suffix from the last
dot; a dotfile such as `.bashrc`, or a name with no dot, has extension
`""` (the special path component `..` is not modelled). -/
def extname (p : String) : String :=
  ⟨extnameOfBase (afterLastSlash p.data)⟩

/-- Model of JavaScript `toLowerCase` on the strings this code handles
(ASCII restriction of Unicode lowercasing). -/
def lowerStr (s : String) : String := ⟨s.data.map Char.toLower⟩

/-- MIME selection of `createDataUri` (server.js 504-513): `.jpg`/`.jpeg`
map to `image/jpeg`, `.png` to `image/png`, `.webp` to `image/webp`,
anything else to `application/octet-stream`. -/
def mimeFromPath (p : String) : String :=
  let ext := lowerStr (extname p)
  if ext = ".jpg" || ext = ".jpeg" then "image/jpeg"
  else if ext = ".png" then "image/png"
  else if ext = ".webp" then "image/webp"
  else "application/octet-stream"

/-- `createDataUri` (server.js 496-525) given the base64 rendering of the
file bytes (the file read is modelled by passing its result in). -/
def createDataUri (p : String) (base64Data : String) : String :=
  "data:" ++ mimeFromPath p ++ ";base64," ++ base64Data

/-- `uploadToReplicateCDN` (server.js 528-557); its body repeats
`createDataUri` verbatim. -/
def uploadToReplicateCDN (p : String) (base64Data : String) : String :=
  "data:" ++ mimeFromPath p ++ ";base64," ++ base64Data

/-! ## Prompt sanitizer: `sanitizePrompt` (server.js 242-272) -/

/-- One left-to-right pass removing every (case-insensitive, non-overlapping)
occurrence of `phrase`, as `cleaned.replace(new RegExp(phrase, "gi"), "")`
does: after a match the scan resumes after the matched region. -/
def stripPhrase (phrase : String) : List Char → List Char
  | [] => []
  | c :: rest =>
    if (phrase.data.map Char.toLower).isPrefixOf ((c :: rest).map Char.toLower)
        && phrase.data.length ≠ 0 then
      stripPhrase phrase (rest.drop (phrase.data.length - 1))
    else
      c :: stripPhrase phrase rest
termination_by cs => cs.length
decreasing_by
  · simp only [List.length_drop, List.length_cons]
    omega
  · simp only [List.length_cons]
    omega

/-- `cleaned.replace(/\s+/g, " ")`: every maximal run of whitespace becomes
a single space. -/
def collapseWs : List Char → List Char
  | [] => []
  | c :: rest =>
    if c.isWhitespace then
      ' ' :: collapseWs (rest.dropWhile Char.isWhitespace)
    else
      c :: collapseWs rest
termination_by cs => cs.length
decreasing_by
  · simp only [List.length_cons]
    exact Nat.lt_succ_of_le ((List.dropWhile_sublist _).length_le)
  · simp only [List.length_cons]
    omega

/-- The banned phrase list of `sanitizePrompt` (server.js 252-255). -/
def bannedPhrases : List String :=
  ["nsfw", "nude", "naked", "xxx", "porn", "explicit", "sex",
   "erotic", "adult content", "obscene", "sexual", "intimate parts"]

/-- The quality terms of `sanitizePrompt` (server.js 264). -/
def qualityTerms : List String :=
  ["high quality", "detailed", "high resolution", "hd", "4k", "8k"]

/-- Decidable substring check: `needle` occurs contiguously in `haystack`
(JavaScript `String.prototype.includes`). -/
def containsSub (needle haystack : List Char) : Bool :=
  match haystack with
  | [] => needle.isEmpty
  | _ :: rest => needle.isPrefixOf haystack || containsSub needle rest

/-- Whether the cleaned prompt already carries a quality term
(server.js 265): `qualityTerms.some(t => cleaned.toLowerCase().includes(t))`. -/
def hasQualityTerm (s : String) : Bool :=
  qualityTerms.any fun t => containsSub t.data (lowerStr s).data

/-- The successive reassignments of `cleaned` in `sanitizePrompt`
(server.js 246-261): trim, collapse whitespace, strip the banned phrases
in order. -/
def cleanedPrompt (prompt : String) : String :=
  bannedPhrases.foldl (fun s p => ⟨stripPhrase p s.data⟩) ⟨collapseWs prompt.trim.data⟩

/-- `sanitizePrompt` (server.js 242-272): falsy prompt returns `""`; else
trim, collapse whitespace, strip banned phrases, and append
`", high quality, detailed"` when no quality term is present. -/
def sanitizePrompt (prompt : String) : String :=
  if prompt = "" then ""
  else if hasQualityTerm (cleanedPrompt prompt) then cleanedPrompt prompt
  else cleanedPrompt prompt ++ ", high quality, detailed"

/-! ## Output normalization (server.js 1042-1064)

JavaScript values that `result.output` can take are modelled by `JsOut`;
an object is represented by its `image` and `images` fields, which are the
only ones the code reads (`undefv` stands for JavaScript `undefined`). -/

/-- A JavaScript value as seen by the output-normalization branch chain. -/
inductive JsOut where
  | nullv : JsOut
  | undefv : JsOut
  | strv (s : String) : JsOut
  | arrv (xs : List JsOut) : JsOut
  | objv (image : Option JsOut) (images : Option JsOut) : JsOut
deriving Repr

/-- JavaScript truthiness for `JsOut` values. -/
def JsOut.truthy : JsOut → Bool
  | .nullv => false
  | .undefv => false
  | .strv s => !s.isEmpty
  | .arrv _ => true
  | .objv _ _ => true

/-- `Array.isArray`. -/
def JsOut.isArr : JsOut → Bool
  | .arrv _ => true
  | _ => false

/-- `typeof v === "string"`. -/
def JsOut.isStr : JsOut → Bool
  | .strv _ => true
  | _ => false

/-- Property access `v.image` (`undefined` when absent or not an object). -/
def JsOut.getImage : JsOut → JsOut
  | .objv (some v) _ => v
  | _ => .undefv

/-- Property access `v.images`. -/
def JsOut.getImages : JsOut → JsOut
  | .objv _ (some v) => v
  | _ => .undefv

/-- `!imageUrls.length`: true when `.length` is `0` or `undefined`. -/
def JsOut.lengthFalsy : JsOut → Bool
  | .arrv xs => xs.isEmpty
  | .strv s => s.isEmpty
  | _ => true

/-- The output-processing chain of `/api/generate-image` (server.js
1042-1064): the `engineType === "character"` wrap, the shape dispatch, and
the final `!imageUrls.length` guard.  The error strings are the messages
the code throws. -/
def normalizeOutput (isCharacter : Bool) (output : JsOut) : Except String JsOut :=
  let sel : Except String JsOut :=
    if isCharacter then
      .ok (if output.isArr then output else .arrv [output])
    else if output.isArr then
      .ok output
    else if output.truthy && output.isStr then
      .ok (.arrv [output])
    else if output.truthy && output.getImage.truthy then
      .ok (.arrv [output.getImage])
    else if output.truthy && output.getImages.truthy then
      .ok output.getImages
    else
      .error "Unexpected output format from model"
  match sel with
  | .error e => .error e
  | .ok urls =>
    if urls.lengthFalsy then .error "No output images received from the model"
    else .ok urls

/-! ## Prediction polling loop (server.js 997-1037)

The loop re-fetches the prediction until its status is terminal or the
attempt counter reaches 300; a fetch error does not abort the loop while
`attempts < maxAttempts - 1` but — crucially — also does not increment
`attempts` (the `continue` skips `attempts++`).  `fetch n` is the outcome
of the `n`-th call to `replicate.predictions.get`; `fuel` bounds how many
loop iterations we observe (the source loop itself is unbounded). -/

/-- Status and attempt counter of the polling loop. -/
structure PollState where
  status : String
  attempts : Nat
deriving Repr, DecidableEq

/-- Negation of the `while` condition:
`status === "succeeded" || status === "failed"`. -/
def pollTerminal (s : String) : Bool :=
  s = "succeeded" || s = "failed"

/-- How an observed run of the polling loop ended. -/
inductive PollExit where
  | exited (st : PollState) : PollExit
  | threw (st : PollState) : PollExit
  | running (st : PollState) : PollExit
deriving Repr, DecidableEq

/-- The polling loop (server.js 1002-1024).  Returns the exit mode together
with the total number of status-fetch calls made.  `calls` indexes the next
fetch; `fuel` is the number of loop-condition checks we are willing to
observe — `running` means the loop had still not finished. -/
def pollLoop (fetch : Nat → Except Unit String) (maxAttempts : Nat) :
    Nat → Nat → PollState → PollExit × Nat
  | 0, calls, st => (.running st, calls)
  | fuel + 1, calls, st =>
    if pollTerminal st.status || maxAttempts ≤ st.attempts then
      (.exited st, calls)
    else
      match fetch calls with
      | .error _ =>
        if st.attempts < maxAttempts - 1 then
          pollLoop fetch maxAttempts fuel (calls + 1) st
        else
          (.threw st, calls + 1)
      | .ok s =>
        pollLoop fetch maxAttempts fuel (calls + 1) ⟨s, st.attempts + 1⟩

/-- The post-loop reporting (server.js 1026-1037): a failed status raises
the prediction error, ceiling exhaustion without success raises a timeout,
success falls through. -/
def pollReport (maxAttempts : Nat) (st : PollState) : Except String Unit :=
  if st.status = "failed" then .error "Prediction failed"
  else if maxAttempts ≤ st.attempts && st.status ≠ "succeeded" then
    .error "Prediction timed out"
  else .ok ()

/-! ## Remote Image Publisher (server.js 298-444)

`uploadToImageHost` reads the file, tries ImgBB (verifying the returned URL
with a HEAD request), then imgcdn.dev, then falls back to a base64 marker
object; only a file-read failure escapes the outer `try` and is re-thrown.
`getAccessibleImageUrl` re-verifies a returned URL and, on verification
failure, retries the upload through a temporary copy, swallowing every
error of that fallback.  Network/file outcomes are passed in explicitly. -/

/-- The value `uploadToImageHost` resolves with: a hosted URL string or the
`{ isBase64: true, data: ... }` marker object. -/
inductive HostedResult where
  | url (s : String) : HostedResult
  | base64 (data : String) : HostedResult
deriving Repr, DecidableEq

/-- Outcomes of the effects inside one `uploadToImageHost` call.
`fileBytes` is the base64 text of the file if readable; `imgbbResp` the
URL from a usable ImgBB response (`none`: request threw or no data);
`imgbbVerify` the status of the verification HEAD request (`none`: threw);
`imgcdnResp` likewise for the alternative host. -/
structure PublishEnv where
  fileBytes : Option String
  imgbbResp : Option String
  imgbbVerify : Option Nat
  imgcdnResp : Option String
deriving Repr, DecidableEq

/-- The tail of `uploadToImageHost` after the ImgBB attempt has not
returned (server.js 353-384): alternative host, then base64 marker. -/
def uploadHostFallback (e : PublishEnv) (b64 : String) : Except String HostedResult :=
  match e.imgcdnResp with
  | some u => .ok (.url u)
  | none => .ok (.base64 ("data:image/jpeg;base64," ++ b64))

/-- `uploadToImageHost` (server.js 298-389). -/
def uploadToImageHost (e : PublishEnv) : Except String HostedResult :=
  match e.fileBytes with
  | none => .error "Failed to upload image"
  | some b64 =>
    match e.imgbbResp with
    | some u =>
      match e.imgbbVerify with
      | some code =>
        if 200 ≤ code && code < 300 then .ok (.url u)
        else uploadHostFallback e b64
      | none => uploadHostFallback e b64
    | none => uploadHostFallback e b64

/-- The cloud-storage fallback block of `getAccessibleImageUrl`
(server.js 416-439): copy to a temp file, upload again, unlink; any error
inside the block is caught and the original URL string is returned. -/
def publisherSecondAttempt (e2 : PublishEnv) (copyOk unlinkOk : Bool)
    (s : String) : Except String HostedResult :=
  if copyOk then
    match uploadToImageHost e2 with
    | .ok r2 => if unlinkOk then .ok r2 else .ok (.url s)
    | .error _ => .ok (.url s)
  else .ok (.url s)

/-- `getAccessibleImageUrl` (server.js 392-444).  `verifyStatus` is the
status of the HEAD verification of a returned URL string (`none`: threw);
`copyOk`/`unlinkOk` are the temp-file operations of the fallback block;
`e2` drives the second `uploadToImageHost` call. -/
def getAccessibleImageUrl (e1 : PublishEnv) (verifyStatus : Option Nat)
    (copyOk unlinkOk : Bool) (e2 : PublishEnv) : Except String HostedResult :=
  match uploadToImageHost e1 with
  | .error m => .error m
  | .ok (.base64 d) => .ok (.base64 d)
  | .ok (.url s) =>
    match verifyStatus with
    | some code =>
      if 200 ≤ code && code < 300 then .ok (.url s)
      else publisherSecondAttempt e2 copyOk unlinkOk s
    | none => publisherSecondAttempt e2 copyOk unlinkOk s

/-! ## Thumbnail metadata file (server.js 1465-1699)

The metadata file is read with `readFile` + `JSON.parse`; both can throw.
`ReadOutcome` is the joint outcome: the file is missing (`readFile`
throws), its content is not valid JSON (`JSON.parse` throws), or it parses
to a list of records.  Records are opaque here and modelled as strings. -/

/-- Joint outcome of `readFile(THUMBNAILS_FILE)` + `JSON.parse`. -/
inductive ReadOutcome where
  | missing : ReadOutcome
  | malformed : ReadOutcome
  | ok (records : List String) : ReadOutcome
deriving Repr, DecidableEq

/-- The reader of `GET /api/thumbnails` (server.js 1553-1562): any read or
parse error is answered with a 500 response. -/
def getThumbnailsRead (r : ReadOutcome) : Except String (List String) :=
  match r with
  | .ok xs => .ok xs
  | _ => .error "Failed to fetch thumbnails"

/-- The reader inside `POST /api/thumbnails` (server.js 1629-1636): any
read or parse error is logged and the operation continues with `[]`. -/
def postThumbnailsRead (r : ReadOutcome) : List String :=
  match r with
  | .ok xs => xs
  | _ => []

/-- The reader of `cleanupThumbnails` (server.js 1469-1477): any read or
parse error makes the sweep return early (`none`: the sweep was aborted). -/
def cleanupThumbnailsRead (r : ReadOutcome) : Option (List String) :=
  match r with
  | .ok xs => some xs
  | _ => none

/-- The reader of `DELETE /api/thumbnails/:id` (server.js 1685-1686): a
read or parse error propagates to the catch and is answered with 500. -/
def deleteThumbnailsRead (r : ReadOutcome) : Except String (List String) :=
  match r with
  | .ok xs => .ok xs
  | _ => .error "Failed to delete thumbnail"

/-- The save-with-verification loop of `POST /api/thumbnails`
(server.js 1642-1658): up to three write attempts; after each write the
file is read back and `JSON.parse`d, and only a verified attempt breaks the
loop.  `verifyOk k` says whether the `k`-th write attempt wrote content
that read back as well-formed JSON.  Returns the index of the verified
attempt, or the 500 error after three failures. -/
def saveThumbnailsLoop (verifyOk : Nat → Bool) (saveRetries : Nat) :
    Except String Nat :=
  if _h : saveRetries < 3 then
    if verifyOk saveRetries then .ok saveRetries
    else saveThumbnailsLoop verifyOk (saveRetries + 1)
  else .error "Failed to save thumbnail metadata"
termination_by 3 - saveRetries

/-! ## Result Store (server.js 1188-1212, 1305-1358)

`predictionResults` and `predictionLocks` are two maps keyed by prediction
id.  They are modelled as association lists / key lists (`PredState`).
`updatePredStateWrite` is the net store effect of one (non-overlapping)
`updatePredictionResult` call: it ensures a lock exists for the id and
replaces the entry with `updateFn` applied to the current entry (default
`{ status: "processing" }`). -/

/-- One entry of `predictionResults`. -/
structure PRec where
  status : String
  imageUrl : Option String
  error : Option String
  completedTime : Option Int
deriving Repr, DecidableEq

/-- The default record `{ status: "processing" }` used when the id has no
entry yet (server.js 1202). -/
def defaultPRec : PRec := ⟨"processing", none, none, none⟩

/-- The two maps of the Result Store. -/
structure PredState where
  results : List (String × PRec)
  locks : List String
deriving Repr, DecidableEq

/-- `Map.set` on the association list: replace the entry in place, or
append a new one. -/
def setEntry (k : String) (v : PRec) (l : List (String × PRec)) :
    List (String × PRec) :=
  if l.any (fun e => e.1 = k) then
    l.map (fun e => if e.1 = k then (k, v) else e)
  else l ++ [(k, v)]

/-- Net store effect of one `updatePredictionResult(id, updateFn)` call
executed without overlap (server.js 1192-1212): create the lock entry if
missing, then set `results[id] := updateFn(results[id] ?? default)`.
No entry of either map is ever removed. -/
def updatePredStateWrite (id : String) (updateFn : PRec → PRec)
    (st : PredState) : PredState :=
  { results := setEntry id (updateFn (((st.results).lookup id).getD defaultPRec)) st.results
    locks := if st.locks.contains id then st.locks else st.locks ++ [id] }

/-- The eviction test of the cleanup loop (server.js 1341):
`value.completedTime && (now - value.completedTime) > 3600000`. -/
def evictable (now : Int) (r : PRec) : Bool :=
  match r.completedTime with
  | some t => t ≠ 0 && now - t > 3600000
  | none => false

/-- The cleanup loop of `GET /api/prediction/:id` (server.js 1338-1345):
every results entry completed more than one hour before `now` is deleted
from `predictionResults` and `predictionLocks`. -/
def cleanupOldResults (now : Int) (st : PredState) : PredState :=
  { results := st.results.filter (fun e => !evictable now e.2)
    locks := st.locks.filter (fun k =>
      match st.results.lookup k with
      | some r => !evictable now r
      | none => true) }

/-- Outcome of the `replicate.predictions.get(id)` call made by the status
endpoint for a still-processing entry. -/
inductive RemoteFetch where
  | throws : RemoteFetch
  | ok (status : String) (output : List String) (error : Option String) : RemoteFetch
deriving Repr, DecidableEq

/-- `GET /api/prediction/:id` (server.js 1305-1358).  Returns
`((httpStatus, body), newState, remoteCalls)`: 404 with untouched state for
an unknown id; for a processing entry one remote fetch, a store update on a
terminal remote status, then the cleanup sweep; for a finished entry just
the cleanup sweep.  A remote fetch that throws is caught by the outer
handler (500) before the cleanup runs. -/
def getPredictionEndpoint (id : String) (st : PredState) (now : Int)
    (remote : RemoteFetch) : (Nat × Option PRec) × PredState × Nat :=
  match st.results.lookup id with
  | none => ((404, none), st, 0)
  | some r =>
    if r.status = "processing" then
      match remote with
      | .throws => ((500, none), st, 1)
      | .ok ps out err =>
        let st1 :=
          if ps = "succeeded" then
            updatePredStateWrite id
              (fun _ => ⟨"completed", out.head?, none, some now⟩) st
          else if ps = "failed" then
            updatePredStateWrite id
              (fun _ => ⟨"failed", none, some (err.getD "Image generation failed"), some now⟩) st
          else st
        ((200, st1.results.lookup id), cleanupOldResults now st1, 1)
    else
      ((200, some r), cleanupOldResults now st, 0)

/-! ## Thumbnail Archiver: `downloadAndSaveImage` (server.js 1364-1463)

The download loop runs while `retryCount < 3`.  An iteration issues the
primary request (`validateStatus: false`, so a bad status comes back as a
response): status 200 breaks; any other status increments the counter and
sleeps 2000 ms.  A thrown request tries the `replicate.com` substitution
when the URL contains `replicate.delivery`; if that does not yield a 200,
the counter is incremented and either the loop sleeps 2000 ms or — on the
third failure — throws `Max retries reached`.  After a 200 response the
bytes are written, and the file is verified to exist with non-zero size
before the local URL is returned. -/

/-- Outcome of one HTTP request of the archiver.  `status c` is a response
with a non-200 status code `c`. -/
inductive DlOutcome where
  | ok200 : DlOutcome
  | status (code : Nat) : DlOutcome
  | thrown : DlOutcome
deriving Repr, DecidableEq

/-- Outcomes of the effects of one `downloadAndSaveImage` call.
`primary k` / `alt k` are the primary and alternate-host request outcomes
in loop iteration `k`; the write/stat fields drive post-download
verification. -/
structure ArchiveEnv where
  urlHasThumbPath : Bool
  localThumbExists : Bool
  urlIsReplicateDelivery : Bool
  primary : Nat → DlOutcome
  alt : Nat → DlOutcome
  writeOk : Bool
  accessOk : Bool
  statSize : Nat

/-- How the download loop ended. -/
inductive DlEnd where
  | gotOk : DlEnd
  | statusExhausted : DlEnd
  | maxRetriesThrown : DlEnd
deriving Repr, DecidableEq

/-- Result of the download loop: how it ended, how many iterations (= loop
passes, each with one primary request) ran, and the backoff sleeps (ms)
performed between iterations. -/
structure DlLoopOut where
  outcome : DlEnd
  iters : Nat
  sleeps : List Nat
deriving Repr, DecidableEq

/-- The retry loop of `downloadAndSaveImage` (server.js 1385-1427),
started at `retryCount = 0`. -/
def downloadLoop (env : ArchiveEnv) (retryCount : Nat) : DlLoopOut :=
  if _h : retryCount < 3 then
    match env.primary retryCount with
    | .ok200 => ⟨.gotOk, 1, []⟩
    | .status _ =>
      let rec' := downloadLoop env (retryCount + 1)
      ⟨rec'.outcome, 1 + rec'.iters, 2000 :: rec'.sleeps⟩
    | .thrown =>
      if env.urlIsReplicateDelivery && env.alt retryCount = .ok200 then
        ⟨.gotOk, 1, []⟩
      else if retryCount + 1 < 3 then
        let rec' := downloadLoop env (retryCount + 1)
        ⟨rec'.outcome, 1 + rec'.iters, 2000 :: rec'.sleeps⟩
      else ⟨.maxRetriesThrown, 1, []⟩
  else ⟨.statusExhausted, 0, []⟩
termination_by 3 - retryCount

/-- What `downloadAndSaveImage` resolves with: the unchanged input URL (the
already-local fast path) or the freshly written local thumbnail URL. -/
inductive SaveResult where
  | originalUrl : SaveResult
  | localUrl : SaveResult
deriving Repr, DecidableEq

/-- `downloadAndSaveImage` (server.js 1364-1463): fast path for an already
local and present file, then the retry loop, then write + verification
(exists, non-zero size) before the local URL is returned; every failure
path throws. -/
def downloadAndSaveImage (env : ArchiveEnv) : Except String SaveResult :=
  if env.urlHasThumbPath && env.localThumbExists then .ok .originalUrl
  else
    match (downloadLoop env 0).outcome with
    | .maxRetriesThrown => .error "Max retries reached for download"
    | .statusExhausted => .error "Failed to download image after 3 attempts"
    | .gotOk =>
      if !env.writeOk then .error "Failed to write file"
      else if !env.accessOk then .error "File verification failed"
      else if env.statSize = 0 then .error "File was created but is empty"
      else .ok .localUrl

/-! ## Per-id promise chaining of `updatePredictionResult` (server.js 1188-1212)

To settle the serialization property we model the JavaScript event loop:
run-to-completion tasks, a FIFO microtask queue for continuations of
`await` on promises, and timers (macrotasks) that fire in time order after
the microtask queue drains.  `updatePredictionResult` is transcribed as a
coroutine with one continuation per `await` point.  All calls target the
same id; call `i` runs `updateFn = async cur => { await sleep(delay i);
return cur ++ [tag i] }`.  Promise `0` is the initially stored resolved
lock; promise `i + 1` is the `newLock` created by call `i`. -/

/-- The stored value: the list of update tags applied so far. -/
abbrev StoreVal := List String

/-- An update issued against the store: its tag and how long its
`updateFn` takes. -/
structure UpdateSpec where
  tag : String
  delay : Nat
deriving Repr, DecidableEq

/-- Continuations of `updatePredictionResult` at its `await` points. -/
inductive JsTask where
  | startCall (i : Nat) : JsTask
  | afterLock (i : Nat) : JsTask
  | fnDone (i : Nat) (snapshot : StoreVal) : JsTask
  | afterNewLock (i : Nat) : JsTask
deriving Repr, DecidableEq

/-- The event-loop world: the store entry, the current lock promise id,
resolved promises, promise waiters, the microtask queue, pending timers,
and the clock. -/
structure JsWorld where
  store : Option StoreVal
  lockPid : Nat
  lockSet : Bool
  resolved : List Nat
  waiters : List (Nat × JsTask)
  micro : List JsTask
  timers : List (Nat × JsTask)
  time : Nat
deriving Repr

/-- `await p` with continuation `k`: resume via the microtask queue when
`p` is already resolved, otherwise park on `p`. -/
def awaitOn (w : JsWorld) (p : Nat) (k : JsTask) : JsWorld :=
  if w.resolved.contains p then { w with micro := w.micro ++ [k] }
  else { w with waiters := w.waiters ++ [(p, k)] }

/-- Resolve promise `p`: its waiters move to the microtask queue in order. -/
def resolveP (w : JsWorld) (p : Nat) : JsWorld :=
  { w with
    resolved := p :: w.resolved
    waiters := w.waiters.filter (fun x => x.1 ≠ p)
    micro := w.micro ++ (w.waiters.filter (fun x => x.1 = p)).map (fun x => x.2) }

/-- Run one task to its next suspension, following the source line by
line.  `startCall i` is the synchronous prologue of call `i` (ensure the
lock entry exists, `await lock`); `afterLock i` is the code after that
await (read the current result, start `updateFn` — which suspends on its
timer — publish `newLock`, `await newLock`); `fnDone` is the resumption of
the promise executor once `updateFn` finished (store the updated result,
resolve `newLock`); `afterNewLock` is the final no-op resumption. -/
def runJsTask (updates : List UpdateSpec) (w : JsWorld) : JsTask → JsWorld
  | .startCall i =>
    let w := if !w.lockSet then
        { w with lockPid := 0, lockSet := true, resolved := 0 :: w.resolved }
      else w
    awaitOn w w.lockPid (.afterLock i)
  | .afterLock i =>
    match updates[i]? with
    | none => w
    | some u =>
      let snapshot := w.store.getD []
      let w := { w with timers := w.timers ++ [(w.time + u.delay, JsTask.fnDone i snapshot)] }
      let w := { w with lockPid := i + 1 }
      awaitOn w (i + 1) (.afterNewLock i)
  | .fnDone i snapshot =>
    match updates[i]? with
    | none => w
    | some u =>
      let w := { w with store := some (snapshot ++ [u.tag]) }
      resolveP w (i + 1)
  | .afterNewLock _ => w

/-- Remove the earliest-firing timer (FIFO among equal times). -/
def popEarliestTimer (l : List (Nat × JsTask)) :
    Option ((Nat × JsTask) × List (Nat × JsTask)) :=
  match l with
  | [] => none
  | x :: xs =>
    let m := xs.foldl (fun a b => Nat.min a b.1) x.1
    let idx := l.findIdx (fun e => e.1 = m)
    match l[idx]? with
    | some e => some (e, l.eraseIdx idx)
    | none => none

/-- The event loop: drain the microtask queue FIFO; when it is empty, fire
the earliest timer; stop when nothing is left (or the fuel runs out). -/
def jsEventLoop (updates : List UpdateSpec) : Nat → JsWorld → JsWorld
  | 0, w => w
  | fuel + 1, w =>
    match w.micro with
    | t :: rest => jsEventLoop updates fuel (runJsTask updates { w with micro := rest } t)
    | [] =>
      match popEarliestTimer w.timers with
      | none => w
      | some ((tm, t), rest) =>
        jsEventLoop updates fuel (runJsTask updates { w with timers := rest, time := tm } t)

/-- Issue all the updates in the same synchronous turn (each call runs its
prologue up to `await lock` before the next is issued, none is awaited by
the caller), then run the event loop to quiescence. -/
def simulateConcurrentUpdates (updates : List UpdateSpec) : JsWorld :=
  let w0 : JsWorld := ⟨none, 0, false, [], [], [], [], 0⟩
  let w1 := (List.range updates.length).foldl
    (fun w i => runJsTask updates w (.startCall i)) w0
  jsEventLoop updates 50 w1

/-! # Theorems -/

/-! ## Helper lemmas -/

theorem containsSub_append_right (n a b : List Char) (h : containsSub n b = true) :
    containsSub n (a ++ b) = true := by
  induction a with
  | nil => simpa using h
  | cons c cs ih =>
    simp only [List.cons_append, containsSub, Bool.or_eq_true]
    exact Or.inr ih

theorem hasQualityTerm_append_quality (c : String) :
    hasQualityTerm (c ++ ", high quality, detailed") = true := by
  unfold hasQualityTerm
  apply List.any_eq_true.mpr
  refine ⟨"high quality", by simp [qualityTerms], ?_⟩
  have hd : (lowerStr (c ++ ", high quality, detailed")).data
      = (lowerStr c).data ++ (lowerStr ", high quality, detailed").data := by
    simp [lowerStr, String.data_append]
  rw [hd]
  exact containsSub_append_right _ _ _ (by decide)

theorem isEmpty_false_of_ne (s : String) (h : s ≠ "") : s.isEmpty = false := by
  rw [Bool.eq_false_iff]
  intro hc
  exact h ((String.isEmpty_iff s).mp hc)

theorem truthy_objv (a b : Option JsOut) : (JsOut.objv a b).truthy = true := rfl

theorem truthy_arrv (xs : List JsOut) : (JsOut.arrv xs).truthy = true := rfl

theorem getImage_objv_some (v : JsOut) (b : Option JsOut) :
    (JsOut.objv (some v) b).getImage = v := rfl

theorem getImages_objv_some (a : Option JsOut) (w : JsOut) :
    (JsOut.objv a (some w)).getImages = w := rfl

/-! ## C8: Image Encoder MIME selection -/

/-- Claim C8: for every local file path the MIME type chosen by the encoder
is image/jpeg for (case-insensitive) extensions .jpg/.jpeg, image/png for
.png, image/webp for .webp, and application/octet-stream for every other
extension, and the produced data URI carries that MIME type and the base64
payload; `uploadToReplicateCDN` produces the identical data URI. -/
theorem C8_mime_selection (p b : String) :
    ((lowerStr (extname p) = ".jpg" ∨ lowerStr (extname p) = ".jpeg") →
      createDataUri p b = "data:image/jpeg;base64," ++ b) ∧
    (lowerStr (extname p) = ".png" →
      createDataUri p b = "data:image/png;base64," ++ b) ∧
    (lowerStr (extname p) = ".webp" →
      createDataUri p b = "data:image/webp;base64," ++ b) ∧
    (lowerStr (extname p) ≠ ".jpg" → lowerStr (extname p) ≠ ".jpeg" →
     lowerStr (extname p) ≠ ".png" → lowerStr (extname p) ≠ ".webp" →
      createDataUri p b = "data:application/octet-stream;base64," ++ b) ∧
    uploadToReplicateCDN p b = createDataUri p b := by
  refine ⟨?_, ?_, ?_, ?_, rfl⟩
  · rintro (h | h) <;> simp +decide [createDataUri, mimeFromPath, h]
  · intro h
    simp +decide [createDataUri, mimeFromPath, h]
  · intro h
    simp +decide [createDataUri, mimeFromPath, h]
  · intro h1 h2 h3 h4
    simp [createDataUri, mimeFromPath, h1, h2, h3, h4]

/-- Witness for C8 at concrete paths, including a mixed-case extension. -/
theorem C8_mime_selection_witness :
    createDataUri "photo.JPG" "Zm9v" = "data:image/jpeg;base64," ++ "Zm9v" ∧
    createDataUri "a/b.PnG" "Zm9v" = "data:image/png;base64," ++ "Zm9v" ∧
    createDataUri "c.webp" "Zm9v" = "data:image/webp;base64," ++ "Zm9v" ∧
    createDataUri "d.gif" "Zm9v" = "data:application/octet-stream;base64," ++ "Zm9v" :=
  ⟨(C8_mime_selection "photo.JPG" "Zm9v").1 (Or.inl (by decide)),
   (C8_mime_selection "a/b.PnG" "Zm9v").2.1 (by decide),
   (C8_mime_selection "c.webp" "Zm9v").2.2.1 (by decide),
   (C8_mime_selection "d.gif" "Zm9v").2.2.2.1 (by decide) (by decide) (by decide) (by decide)⟩

/-! ## C9: sanitized prompts carry a quality term -/

/-- Counterexample to claim C9: the claim quantifies over every prompt
string, but for the empty (falsy) prompt `sanitizePrompt` returns the raw
prompt `""` unchanged, which contains none of the quality terms. -/
theorem C9_counterexample :
    sanitizePrompt "" = "" ∧ hasQualityTerm "" = false := by
  constructor
  · rfl
  · decide

/-- Claim C9 as amended: for every NON-EMPTY prompt string the sanitized
prompt contains at least one of the quality terms (case-insensitively),
because ", high quality, detailed" is appended whenever none of them occurs
in the cleaned prompt.  (The empty prompt is returned unchanged as `""`.) -/
theorem C9_quality_terms_amended (p : String) (hp : p ≠ "") :
    hasQualityTerm (sanitizePrompt p) = true := by
  rw [sanitizePrompt, if_neg hp]
  by_cases h : hasQualityTerm (cleanedPrompt p) = true
  · rw [if_pos h]
    exact h
  · rw [if_neg h]
    exact hasQualityTerm_append_quality _

/-- Witness for C9 at a concrete prompt. -/
theorem C9_quality_terms_amended_witness :
    hasQualityTerm (sanitizePrompt "a car") = true :=
  C9_quality_terms_amended "a car" (by decide)

/-! ## C10: status query for an unknown id -/

/-- Claim C10: querying the prediction-status endpoint with an id that has
no Result Store entry answers 404, leaves both maps untouched (no entry,
no per-key lock is created), and makes no remote status fetch. -/
theorem C10_unknown_id (id : String) (st : PredState) (now : Int)
    (remote : RemoteFetch) (h : st.results.lookup id = none) :
    getPredictionEndpoint id st now remote = ((404, none), st, 0) := by
  simp [getPredictionEndpoint, h]

/-- Witness for C10 on the empty store. -/
theorem C10_unknown_id_witness :
    (PredState.mk [] []).results.lookup "someid" = none ∧
    getPredictionEndpoint "someid" ⟨[], []⟩ 7200000 RemoteFetch.throws
      = ((404, none), ⟨[], []⟩, 0) :=
  ⟨rfl, C10_unknown_id "someid" ⟨[], []⟩ 7200000 RemoteFetch.throws rfl⟩

/-! ## C2: per-id serialization of Result Store updates -/

/-- Claim C2 is violated by the code: two updates for the same id issued in
the same synchronous turn both `await` the initial, already-resolved lock
(each call publishes its own `newLock` only after that `await` resumes), so
both `updateFn`s read the initial state and run concurrently.  Here update
A takes 2000 ms and update B takes 1000 ms: B writes `["B"]` first and A
then overwrites the entry with `["A"]` computed from the stale snapshot —
the write of B is silently lost (a serialized store would end holding both
tags). -/
theorem C2_lost_update :
    (simulateConcurrentUpdates [⟨"A", 2000⟩, ⟨"B", 1000⟩]).store = some ["A"] := by
  decide

/-! ## C5: thumbnail metadata readers and write validation -/

/-- Counterexample to claim C5: the reader of `GET /api/thumbnails` does
not treat a missing metadata file as the empty list — it fails the
operation with a 500 error. -/
theorem C5_counterexample :
    getThumbnailsRead ReadOutcome.missing = Except.error "Failed to fetch thumbnails" := rfl

/-- Claim C5 as amended: only the reader inside `POST /api/thumbnails`
tolerates a missing (or malformed) metadata file by continuing with the
empty list, and only the POST write is validated — the file is re-read and
parsed after each of up to three write attempts, so a successful save
implies its verification passed, while three failed verifications yield an
error.  The `GET` and `DELETE` readers fail the request on a missing file,
and the cleanup sweep aborts. -/
theorem C5_metadata_amended :
    (postThumbnailsRead ReadOutcome.missing = [] ∧
     postThumbnailsRead ReadOutcome.malformed = []) ∧
    (∀ (verifyOk : Nat → Bool) (i : Nat),
       saveThumbnailsLoop verifyOk 0 = Except.ok i → verifyOk i = true ∧ i < 3) ∧
    (∀ verifyOk : Nat → Bool, (∀ j, j < 3 → verifyOk j = false) →
       saveThumbnailsLoop verifyOk 0 = Except.error "Failed to save thumbnail metadata") ∧
    (getThumbnailsRead ReadOutcome.missing = Except.error "Failed to fetch thumbnails") ∧
    (deleteThumbnailsRead ReadOutcome.missing = Except.error "Failed to delete thumbnail") ∧
    (cleanupThumbnailsRead ReadOutcome.missing = none) := by
  refine ⟨⟨rfl, rfl⟩, ?_, ?_, rfl, rfl, rfl⟩
  · have aux : ∀ (f : Nat → Bool) (n sr i : Nat), 3 - sr ≤ n →
        saveThumbnailsLoop f sr = Except.ok i → f i = true ∧ i < 3 := by
      intro f n
      induction n with
      | zero =>
        intro sr i hle h
        rw [saveThumbnailsLoop, dif_neg (by omega)] at h
        exact absurd h (by simp)
      | succ n ih =>
        intro sr i hle h
        by_cases hsr : sr < 3
        · rw [saveThumbnailsLoop, dif_pos hsr] at h
          by_cases hv : f sr = true
          · rw [if_pos hv] at h
            obtain rfl : sr = i := by simpa using h
            exact ⟨hv, hsr⟩
          · rw [if_neg hv] at h
            exact ih (sr + 1) i (by omega) h
        · rw [saveThumbnailsLoop, dif_neg hsr] at h
          exact absurd h (by simp)
    intro f i h
    exact aux f 3 0 i (by omega) h
  · intro f hf
    rw [saveThumbnailsLoop, dif_pos (by omega),
      if_neg (by simp [hf 0 (by omega)]),
      saveThumbnailsLoop, dif_pos (by omega),
      if_neg (by simp [hf 1 (by omega)]),
      saveThumbnailsLoop, dif_pos (by omega),
      if_neg (by simp [hf 2 (by omega)]),
      saveThumbnailsLoop, dif_neg (by omega)]

/-- Witness for C5: a save whose second attempt verifies, and a save whose
three attempts all fail verification. -/
theorem C5_metadata_amended_witness :
    ((fun k => decide (k = 1)) 1 = true ∧ 1 < 3) ∧
    saveThumbnailsLoop (fun _ => false) 0 = Except.error "Failed to save thumbnail metadata" :=
  ⟨C5_metadata_amended.2.1 (fun k => decide (k = 1)) 1 (by simp [saveThumbnailsLoop]),
   C5_metadata_amended.2.2.1 (fun _ => false) (fun _ _ => rfl)⟩

/-! ## C4: output normalization -/

/-- Counterexample to claim C4: `null` is none of the claimed shapes
(string, list, object with image/images), so the claim requires it to be
treated as an error — but for the character engine the code wraps ANY
non-array output, so a `null` output is returned as the successful
singleton list `[null]`. -/
theorem C4_counterexample :
    normalizeOutput true JsOut.nullv = Except.ok (JsOut.arrv [JsOut.nullv]) := rfl

/-- Claim C4 as amended: a non-empty string normalizes to the singleton
list, a non-empty list is passed through in order, and — for non-character
engines — an object with a truthy `image` field normalizes to that single
reference and an object with a non-empty `images` list (and no truthy
`image`) to that list in order; shapes normalizing to the empty list are
errors, and for non-character engines null, the empty string, and objects
without truthy `image`/`images` are errors.  For the CHARACTER engine,
however, any non-array output whatsoever (including null or an object) is
wrapped as the successful singleton list containing it, rather than being
treated as an error. -/
theorem C4_normalization_amended :
    (∀ (isChar : Bool) (s : String), s ≠ "" →
      normalizeOutput isChar (JsOut.strv s) = Except.ok (JsOut.arrv [JsOut.strv s])) ∧
    (∀ (isChar : Bool) (xs : List JsOut), xs ≠ [] →
      normalizeOutput isChar (JsOut.arrv xs) = Except.ok (JsOut.arrv xs)) ∧
    (∀ (v : JsOut) (imgs : Option JsOut), v.truthy = true →
      normalizeOutput false (JsOut.objv (some v) imgs) = Except.ok (JsOut.arrv [v])) ∧
    (∀ (img : Option JsOut) (ys : List JsOut), (∀ v ∈ img, v.truthy = false) → ys ≠ [] →
      normalizeOutput false (JsOut.objv img (some (JsOut.arrv ys))) = Except.ok (JsOut.arrv ys)) ∧
    (∀ isChar : Bool,
      normalizeOutput isChar (JsOut.arrv []) = Except.error "No output images received from the model") ∧
    (∀ img : Option JsOut, (∀ v ∈ img, v.truthy = false) →
      normalizeOutput false (JsOut.objv img (some (JsOut.arrv []))) = Except.error "No output images received from the model") ∧
    (normalizeOutput false JsOut.nullv = Except.error "Unexpected output format from model") ∧
    (normalizeOutput false (JsOut.strv "") = Except.error "Unexpected output format from model") ∧
    (∀ img imgs : Option JsOut, (∀ v ∈ img, v.truthy = false) → (∀ v ∈ imgs, v.truthy = false) →
      normalizeOutput false (JsOut.objv img imgs) = Except.error "Unexpected output format from model") ∧
    (∀ o : JsOut, o.isArr = false →
      normalizeOutput true o = Except.ok (JsOut.arrv [o])) := by
  have himg : ∀ (img : Option JsOut) (w : Option JsOut), (∀ v ∈ img, v.truthy = false) →
      (JsOut.objv img w).getImage.truthy = false := by
    intro img w h
    cases img with
    | none => rfl
    | some v => exact h v rfl
  refine ⟨?_, ?_, ?_, ?_, ?_, ?_, rfl, rfl, ?_, ?_⟩
  · intro isChar s hs
    have he := isEmpty_false_of_ne s hs
    cases isChar <;>
      simp [normalizeOutput, JsOut.isArr, JsOut.isStr, JsOut.truthy, JsOut.lengthFalsy, he]
  · intro isChar xs hxs
    cases isChar <;>
      simp [normalizeOutput, JsOut.isArr, JsOut.lengthFalsy, hxs]
  · intro v imgs hv
    simp [normalizeOutput, JsOut.isArr, JsOut.isStr, truthy_objv, getImage_objv_some,
      JsOut.lengthFalsy, hv]
  · intro img ys himgf hys
    have h1 := himg img (some (JsOut.arrv ys)) himgf
    simp [normalizeOutput, JsOut.isArr, JsOut.isStr, truthy_objv, h1,
      getImages_objv_some, truthy_arrv, JsOut.lengthFalsy, hys]
  · intro isChar
    cases isChar <;> simp [normalizeOutput, JsOut.isArr, JsOut.lengthFalsy]
  · intro img himgf
    have h1 := himg img (some (JsOut.arrv [])) himgf
    simp [normalizeOutput, JsOut.isArr, JsOut.isStr, truthy_objv, h1,
      getImages_objv_some, truthy_arrv, JsOut.lengthFalsy]
  · intro img imgs himgf himgsf
    have h1 := himg img imgs himgf
    have h2 : (JsOut.objv img imgs).getImages.truthy = false := by
      cases imgs with
      | none => rfl
      | some v => exact himgsf v rfl
    simp [normalizeOutput, JsOut.isArr, JsOut.isStr, truthy_objv, h1, h2]
  · intro o ho
    simp [normalizeOutput, ho, JsOut.lengthFalsy]

/-- Witness for C4 at concrete outputs of each claimed shape. -/
theorem C4_normalization_amended_witness :
    normalizeOutput false (JsOut.strv "u") = Except.ok (JsOut.arrv [JsOut.strv "u"]) ∧
    normalizeOutput false (JsOut.arrv [JsOut.strv "a", JsOut.strv "b"])
      = Except.ok (JsOut.arrv [JsOut.strv "a", JsOut.strv "b"]) ∧
    normalizeOutput false (JsOut.objv (some (JsOut.strv "i")) none)
      = Except.ok (JsOut.arrv [JsOut.strv "i"]) ∧
    normalizeOutput false (JsOut.objv none (some (JsOut.arrv [JsOut.strv "x"])))
      = Except.ok (JsOut.arrv [JsOut.strv "x"]) ∧
    normalizeOutput false (JsOut.arrv []) = Except.error "No output images received from the model" ∧
    normalizeOutput false (JsOut.objv none none) = Except.error "Unexpected output format from model" ∧
    normalizeOutput true (JsOut.objv (some (JsOut.strv "i")) none)
      = Except.ok (JsOut.arrv [JsOut.objv (some (JsOut.strv "i")) none]) :=
  ⟨C4_normalization_amended.1 false "u" (by decide),
   C4_normalization_amended.2.1 false [JsOut.strv "a", JsOut.strv "b"] (by simp),
   C4_normalization_amended.2.2.1 (JsOut.strv "i") none rfl,
   C4_normalization_amended.2.2.2.1 none [JsOut.strv "x"] (by simp) (by simp),
   C4_normalization_amended.2.2.2.2.1 false,
   C4_normalization_amended.2.2.2.2.2.2.2.2.1 none none (by simp) (by simp),
   C4_normalization_amended.2.2.2.2.2.2.2.2.2 (JsOut.objv (some (JsOut.strv "i")) none) rfl⟩

/-! ## C3: the Remote Image Publisher and raising -/

/-- Counterexample to claim C3: the claim quantifies over every local file
path, but when the local file cannot be read, `uploadToImageHost` re-throws
from its outer catch and `getAccessibleImageUrl` propagates the exception —
the Publisher raises instead of returning a usable result. -/
theorem C3_counterexample :
    getAccessibleImageUrl ⟨none, none, none, none⟩ none false false ⟨none, none, none, none⟩
      = Except.error "Failed to upload image" ∧
    uploadToImageHost ⟨none, none, none, none⟩ = Except.error "Failed to upload image" :=
  ⟨rfl, rfl⟩

/-- The upload helper never fails once the file bytes were read. -/
theorem uploadToImageHost_ok_of_read (e : PublishEnv) (b : String)
    (h : e.fileBytes = some b) : ∃ r, uploadToImageHost e = Except.ok r := by
  obtain ⟨fb, ib, iv, ic⟩ := e
  obtain rfl : fb = some b := h
  rcases ib with _ | u <;> rcases iv with _ | c <;> rcases ic with _ | u2 <;>
    simp [uploadToImageHost, uploadHostFallback]
  · split <;> simp
  · split <;> simp

/-- Claim C3 as amended: for every local file path WHOSE BYTES CAN BE READ,
the Publisher never raises — whatever the outcomes of the hosting attempts,
the URL verifications, and the temp-copy fallback, both `uploadToImageHost`
and `getAccessibleImageUrl` return a usable result (a URL string or the
embedded base64 marker).  If the local file cannot be read, both raise. -/
theorem C3_publisher_amended (e1 : PublishEnv) (verifyStatus : Option Nat)
    (copyOk unlinkOk : Bool) (e2 : PublishEnv) (b : String)
    (h : e1.fileBytes = some b) :
    (∃ r, uploadToImageHost e1 = Except.ok r) ∧
    (∃ r, getAccessibleImageUrl e1 verifyStatus copyOk unlinkOk e2 = Except.ok r) := by
  obtain ⟨r1, hr1⟩ := uploadToImageHost_ok_of_read e1 b h
  refine ⟨⟨r1, hr1⟩, ?_⟩
  have hsecond : ∀ s, ∃ r, publisherSecondAttempt e2 copyOk unlinkOk s = Except.ok r := by
    intro s
    unfold publisherSecondAttempt
    cases copyOk
    · simp
    · simp only [if_true]
      rcases h2 : uploadToImageHost e2 with m | r2
      · simp
      · cases unlinkOk <;> simp
  unfold getAccessibleImageUrl
  rw [hr1]
  rcases r1 with s | d
  · rcases verifyStatus with _ | code
    · exact hsecond s
    · by_cases hc : (200 ≤ code && code < 300) = true
      · simp [hc]
      · simp only [Bool.not_eq_true] at hc
        simp only [hc]
        exact hsecond s
  · exact ⟨HostedResult.base64 d, rfl⟩

/-- Witness for C3: a readable file with every hosting attempt failing
still yields the embedded base64 marker. -/
theorem C3_publisher_amended_witness :
    (PublishEnv.mk (some "QUJD") none none none).fileBytes = some "QUJD" ∧
    ((∃ r, uploadToImageHost ⟨some "QUJD", none, none, none⟩ = Except.ok r) ∧
     (∃ r, getAccessibleImageUrl ⟨some "QUJD", none, none, none⟩ none false false
        ⟨none, none, none, none⟩ = Except.ok r)) :=
  ⟨rfl, C3_publisher_amended ⟨some "QUJD", none, none, none⟩ none false false
    ⟨none, none, none, none⟩ "QUJD" rfl⟩

/-! ## C6: Result Store retention -/

/-- Counterexample to claim C6: a WRITE cycle (`updatePredictionResult`)
performs no eviction at all.  Here the store holds an entry completed at
time 1000; after a write cycle for a different id at time 7200000 (almost
two hours later) the stale entry — well past the one-hour window — is still
present. -/
theorem C6_counterexample :
    (updatePredStateWrite "b" (fun _ => ⟨"completed", some "v", none, some 7200000⟩)
        ⟨[("a", ⟨"completed", some "u", none, some 1000⟩)], ["a"]⟩).results.lookup "a"
      = some ⟨"completed", some "u", none, some 1000⟩ ∧
    evictable 7200000 ⟨"completed", some "u", none, some 1000⟩ = true := by
  constructor
  · decide
  · decide

/-- Claim C6 as amended: eviction happens only in the cleanup sweep of the
prediction-status READ endpoint (and only when the queried id exists):
that sweep removes every entry completed more than one hour before now,
together with its per-key lock, so no over-age completed entry survives
it; write cycles (`updatePredictionResult`) never evict anything, and a
read of an unknown id returns 404 without sweeping. -/
theorem C6_retention_amended :
    (∀ (now : Int) (st : PredState) (k : String) (r : PRec),
       (k, r) ∈ (cleanupOldResults now st).results → evictable now r = false) ∧
    (∀ (now : Int) (st : PredState) (k : String) (r : PRec),
       k ∈ (cleanupOldResults now st).locks → st.results.lookup k = some r →
       evictable now r = false) ∧
    (∀ (id : String) (f : PRec → PRec) (st : PredState) (k : String) (r : PRec),
       (k, r) ∈ st.results → k ≠ id → (k, r) ∈ (updatePredStateWrite id f st).results) ∧
    (∀ (id : String) (st : PredState) (now : Int) (remote : RemoteFetch) (r : PRec),
       st.results.lookup id = some r → r.status ≠ "processing" →
       getPredictionEndpoint id st now remote
         = ((200, some r), cleanupOldResults now st, 0)) := by
  refine ⟨?_, ?_, ?_, ?_⟩
  · intro now st k r hmem
    have h := (List.mem_filter.mp hmem).2
    simpa using h
  · intro now st k r hmem hlook
    have h := (List.mem_filter.mp hmem).2
    rw [hlook] at h
    simpa using h
  · intro id f st k r hmem hne
    unfold updatePredStateWrite setEntry
    by_cases hda : st.results.any (fun e => e.1 = id)
    · simp only [hda, if_true]
      exact List.mem_map.mpr ⟨(k, r), hmem, by simp [hne]⟩
    · simp only [hda, if_false]
      exact List.mem_append.mpr (Or.inl hmem)
  · intro id st now remote r hlook hstatus
    simp [getPredictionEndpoint, hlook, hstatus]

/-- Witness for C6: a finished entry queried at a much later time — the
response carries the entry, the sweep runs, and the stale entry together
with its lock is gone from the returned state. -/
theorem C6_retention_amended_witness :
    (PredState.mk [("a", ⟨"completed", some "u", none, some 1000⟩)] ["a"]).results.lookup "a"
      = some ⟨"completed", some "u", none, some 1000⟩ ∧
    getPredictionEndpoint "a" ⟨[("a", ⟨"completed", some "u", none, some 1000⟩)], ["a"]⟩
        7200000 RemoteFetch.throws
      = ((200, some ⟨"completed", some "u", none, some 1000⟩),
         cleanupOldResults 7200000
           ⟨[("a", ⟨"completed", some "u", none, some 1000⟩)], ["a"]⟩, 0) :=
  ⟨by decide,
   C6_retention_amended.2.2.2 "a" ⟨[("a", ⟨"completed", some "u", none, some 1000⟩)], ["a"]⟩
     7200000 RemoteFetch.throws ⟨"completed", some "u", none, some 1000⟩
     (by decide) (by decide)⟩


/-! ## C1: the polling loop -/

theorem pollLoop_succ (fetch : Nat → Except Unit String) (ma fuel calls : Nat)
    (st : PollState) :
    pollLoop fetch ma (fuel + 1) calls st =
      if pollTerminal st.status || ma ≤ st.attempts then (PollExit.exited st, calls)
      else
        match fetch calls with
        | Except.error _ =>
          if st.attempts < ma - 1 then pollLoop fetch ma fuel (calls + 1) st
          else (PollExit.threw st, calls + 1)
        | Except.ok s => pollLoop fetch ma fuel (calls + 1) ⟨s, st.attempts + 1⟩ := rfl

theorem pollLoop_step_ok (fetch : Nat → Except Unit String) (ma fuel calls : Nat)
    (st : PollState) (s : String) (hterm : pollTerminal st.status = false)
    (hceil : st.attempts < ma) (hf : fetch calls = Except.ok s) :
    pollLoop fetch ma (fuel + 1) calls st
      = pollLoop fetch ma fuel (calls + 1) ⟨s, st.attempts + 1⟩ := by
  rw [pollLoop_succ, if_neg (by simp [hterm]; omega), hf]

theorem pollLoop_step_err (fetch : Nat → Except Unit String) (ma fuel calls : Nat)
    (st : PollState) (hterm : pollTerminal st.status = false)
    (hf : fetch calls = Except.error ()) (hlt : st.attempts < ma - 1) :
    pollLoop fetch ma (fuel + 1) calls st = pollLoop fetch ma fuel (calls + 1) st := by
  rw [pollLoop_succ, if_neg (by simp [hterm]; omega), hf, if_pos hlt]

theorem pollLoop_exit (fetch : Nat → Except Unit String) (ma fuel calls : Nat)
    (st : PollState) (hc : pollTerminal st.status = true ∨ ma ≤ st.attempts) :
    pollLoop fetch ma (fuel + 1) calls st = (PollExit.exited st, calls) := by
  rcases hc with hc | hc
  · rw [pollLoop_succ, if_pos (by simp [hc])]
  · rw [pollLoop_succ, if_pos (by simp [hc])]

set_option maxRecDepth 4000 in
/-- Counterexample to claim C1: the claim asserts the loop always
terminates within the 300-attempt ceiling even when every status fetch
errors.  But a fetch error reaches `continue` before `attempts++`, so the
attempt counter never advances: with every fetch erroring, after observing
350 loop iterations (well beyond the ceiling) the loop is still running in
its initial state, having made 350 fetch calls — it never reaches the
ceiling and never terminates. -/
theorem C1_counterexample :
    pollLoop (fun _ => Except.error ()) 300 350 0 ⟨"processing", 0⟩
      = (PollExit.running ⟨"processing", 0⟩, 350) := by
  decide

/-- Claim C1 as amended: the loop stops exactly at the first fetched
terminal status (making no further fetch calls) or — counting only
SUCCESSFUL fetches — at attempt 300; any normal exit is at a terminal
status or at the ceiling, and ceiling exhaustion without success is
reported as a timeout.  A transient fetch error does not abort the loop
while fewer than 299 attempts are counted, but it also does not advance
the attempt counter; consequently, when every fetch errors, the loop never
terminates: after any number of observed iterations it is still running in
its initial state. -/
theorem C1_polling_amended :
    (∀ (fetch : Nat → Except Unit String) (fuel calls n : Nat) (st ex : PollState),
       pollLoop fetch 300 fuel calls st = (PollExit.exited ex, n) →
       pollTerminal ex.status = true ∨ 300 ≤ ex.attempts) ∧
    (∀ (fetch : Nat → Except Unit String) (k fuel : Nat) (st : PollState),
       pollTerminal st.status = false → st.attempts = 0 → k < 300 → k + 2 ≤ fuel →
       (∀ j, j < k → fetch j = Except.ok "processing") →
       fetch k = Except.ok "succeeded" →
       pollLoop fetch 300 fuel 0 st = (PollExit.exited ⟨"succeeded", k + 1⟩, k + 1)) ∧
    (∀ (fetch : Nat → Except Unit String) (fuel calls : Nat) (st : PollState),
       pollTerminal st.status = false → fetch calls = Except.error () →
       st.attempts < 299 →
       pollLoop fetch 300 (fuel + 1) calls st = pollLoop fetch 300 fuel (calls + 1) st) ∧
    (∀ (fuel calls : Nat) (st : PollState),
       pollTerminal st.status = false → st.attempts < 299 →
       pollLoop (fun _ => Except.error ()) 300 fuel calls st
         = (PollExit.running st, calls + fuel)) ∧
    (∀ st : PollState, pollTerminal st.status = false → 300 ≤ st.attempts →
       pollReport 300 st = Except.error "Prediction timed out") := by
  refine ⟨?_, ?_, ?_, ?_, ?_⟩
  · intro fetch fuel
    induction fuel with
    | zero =>
      intro calls n st ex h
      simp only [pollLoop] at h
      exact PollExit.noConfusion (congrArg Prod.fst h)
    | succ fuel ih =>
      intro calls n st ex h
      by_cases hc : (pollTerminal st.status || decide (300 ≤ st.attempts)) = true
      · rw [pollLoop_succ, if_pos hc] at h
        obtain rfl : st = ex := PollExit.exited.inj (congrArg Prod.fst h)
        rcases (Bool.or_eq_true _ _).mp hc with h1 | h1
        · exact Or.inl h1
        · exact Or.inr (of_decide_eq_true h1)
      · have hc2 : pollTerminal st.status = false ∧ ¬ 300 ≤ st.attempts := by
          constructor
          · rcases hb : pollTerminal st.status with _ | _
            · rfl
            · exact absurd (by simp [hb]) hc
          · intro hle
            exact hc (by simp [hle])
        rcases hf : fetch calls with u | s
        · by_cases hlt : st.attempts < 300 - 1
          · rw [pollLoop_step_err fetch 300 fuel calls st hc2.1 (by cases u; exact hf) hlt] at h
            exact ih (calls + 1) n st ex h
          · rw [pollLoop_succ, if_neg (by simp [hc2.1]; omega), hf, if_neg hlt] at h
            exact PollExit.noConfusion (congrArg Prod.fst h)
        · rw [pollLoop_step_ok fetch 300 fuel calls st s hc2.1 (by omega) hf] at h
          exact ih (calls + 1) n ⟨s, st.attempts + 1⟩ ex h
  · have main : ∀ (fetch : Nat → Except Unit String) (k calls fuel : Nat) (st : PollState),
        pollTerminal st.status = false → st.attempts + k < 300 → k + 2 ≤ fuel →
        (∀ j, j < k → fetch (calls + j) = Except.ok "processing") →
        fetch (calls + k) = Except.ok "succeeded" →
        pollLoop fetch 300 fuel calls st
          = (PollExit.exited ⟨"succeeded", st.attempts + k + 1⟩, calls + k + 1) := by
      intro fetch k
      induction k with
      | zero =>
        intro calls fuel st hterm hceil hfuel _ hk
        obtain ⟨m, rfl⟩ : ∃ m, fuel = m + 2 := ⟨fuel - 2, by omega⟩
        rw [Nat.add_zero] at hk
        rw [pollLoop_step_ok fetch 300 (m + 1) calls st "succeeded" hterm (by omega) hk]
        rw [pollLoop_exit fetch 300 m (calls + 1) ⟨"succeeded", st.attempts + 1⟩
          (Or.inl rfl)]
      | succ k ih =>
        intro calls fuel st hterm hceil hfuel hpre hk
        obtain ⟨m, rfl⟩ : ∃ m, fuel = m + 1 := ⟨fuel - 1, by omega⟩
        have h0 : fetch calls = Except.ok "processing" := by
          have := hpre 0 (by omega)
          rwa [Nat.add_zero] at this
        rw [pollLoop_step_ok fetch 300 m calls st "processing" hterm (by omega) h0]
        have hrec := ih (calls + 1) m ⟨"processing", st.attempts + 1⟩
          rfl (by simp; omega) (by omega)
          (fun j hj => by
            have := hpre (j + 1) (by omega)
            have harith : calls + (j + 1) = calls + 1 + j := by omega
            rwa [harith] at this)
          (by
            have harith : calls + (k + 1) = calls + 1 + k := by omega
            rwa [harith] at hk)
        rw [hrec]
        simp only [Prod.mk.injEq, PollExit.exited.injEq, PollState.mk.injEq]
        exact ⟨⟨trivial, by omega⟩, by omega⟩
    intro fetch k fuel st hterm hzero hk hfuel hpre hlast
    have h := main fetch k 0 fuel st hterm (by omega) hfuel
      (fun j hj => by simpa using hpre j hj) (by simpa using hlast)
    rw [hzero] at h
    simpa using h
  · intro fetch fuel calls st hterm herr hlt
    exact pollLoop_step_err fetch 300 fuel calls st hterm herr (by omega)
  · intro fuel
    induction fuel with
    | zero =>
      intro calls st hterm hlt
      simp [pollLoop]
    | succ fuel ih =>
      intro calls st hterm hlt
      rw [pollLoop_step_err _ 300 fuel calls st hterm rfl (by omega)]
      rw [ih (calls + 1) st hterm hlt]
      simp only [Prod.mk.injEq]
      exact ⟨trivial, by omega⟩
  · intro st hterm hceil
    have h1 : ¬ st.status = "succeeded" ∧ ¬ st.status = "failed" := by
      constructor <;> intro hcx <;> simp [pollTerminal, hcx] at hterm
    rw [pollReport, if_neg h1.2, if_pos (by simp [h1.1]; omega)]

/-- Witness for C1, one conjunct each: a run that exits with a terminal
status; a run whose fifth fetch is the first terminal one and that stops
right there after five calls; one observed error iteration that neither
aborts nor counts; an all-errors run still going after seven iterations;
and a concrete timed-out report. -/
theorem C1_polling_amended_witness :
    (pollTerminal (PollState.mk "succeeded" 1).status = true ∨
      300 ≤ (PollState.mk "succeeded" 1).attempts) ∧
    pollLoop (fun n => if n < 4 then Except.ok "processing" else Except.ok "succeeded")
        300 10 0 ⟨"processing", 0⟩ = (PollExit.exited ⟨"succeeded", 4 + 1⟩, 4 + 1) ∧
    pollLoop (fun _ => Except.error ()) 300 (5 + 1) 0 ⟨"processing", 0⟩
      = pollLoop (fun _ => Except.error ()) 300 5 (0 + 1) ⟨"processing", 0⟩ ∧
    pollLoop (fun _ => Except.error ()) 300 7 3 ⟨"processing", 0⟩
      = (PollExit.running ⟨"processing", 0⟩, 3 + 7) ∧
    pollReport 300 ⟨"processing", 300⟩ = Except.error "Prediction timed out" := by
  refine ⟨?_, ?_, ?_, ?_, ?_⟩
  · exact C1_polling_amended.1 (fun _ => Except.ok "succeeded") 10 0 1
      ⟨"processing", 0⟩ ⟨"succeeded", 1⟩ (by decide)
  · exact C1_polling_amended.2.1
      (fun n => if n < 4 then Except.ok "processing" else Except.ok "succeeded")
      4 10 ⟨"processing", 0⟩ rfl rfl (by omega) (by omega)
      (fun j hj => by simp [hj]) (by norm_num)
  · exact C1_polling_amended.2.2.1 (fun _ => Except.error ()) 5 0
      ⟨"processing", 0⟩ rfl rfl (by decide)
  · exact C1_polling_amended.2.2.2.1 7 3 ⟨"processing", 0⟩ rfl (by decide)
  · exact C1_polling_amended.2.2.2.2 ⟨"processing", 300⟩ rfl (by decide)

/-! ## C7: archiver download retry -/

theorem downloadLoop_ge (env : ArchiveEnv) (rc : Nat) (h : 3 ≤ rc) :
    downloadLoop env rc = ⟨DlEnd.statusExhausted, 0, []⟩ := by
  rw [downloadLoop, dif_neg (by omega)]

theorem downloadLoop_ok (env : ArchiveEnv) (rc : Nat) (h : rc < 3)
    (hp : env.primary rc = DlOutcome.ok200) :
    downloadLoop env rc = ⟨DlEnd.gotOk, 1, []⟩ := by
  rw [downloadLoop, dif_pos h, hp]

theorem downloadLoop_status (env : ArchiveEnv) (rc c : Nat) (h : rc < 3)
    (hp : env.primary rc = DlOutcome.status c) :
    downloadLoop env rc =
      ⟨(downloadLoop env (rc + 1)).outcome, 1 + (downloadLoop env (rc + 1)).iters,
       2000 :: (downloadLoop env (rc + 1)).sleeps⟩ := by
  rw [downloadLoop, dif_pos h, hp]

theorem downloadLoop_thrown_retry (env : ArchiveEnv) (rc : Nat) (h : rc + 1 < 3)
    (hp : env.primary rc = DlOutcome.thrown)
    (halt : env.urlIsReplicateDelivery = false ∨ env.alt rc ≠ DlOutcome.ok200) :
    downloadLoop env rc =
      ⟨(downloadLoop env (rc + 1)).outcome, 1 + (downloadLoop env (rc + 1)).iters,
       2000 :: (downloadLoop env (rc + 1)).sleeps⟩ := by
  have hcond : (env.urlIsReplicateDelivery && decide (env.alt rc = DlOutcome.ok200)) = false := by
    rcases halt with h1 | h1
    · simp [h1]
    · simp [h1]
  rw [downloadLoop, dif_pos (by omega), hp]
  simp only [hcond, Bool.false_eq_true, if_false]
  rw [if_pos h]

theorem downloadLoop_thrown_last (env : ArchiveEnv) (hp : env.primary 2 = DlOutcome.thrown)
    (halt : env.urlIsReplicateDelivery = false ∨ env.alt 2 ≠ DlOutcome.ok200) :
    downloadLoop env 2 = ⟨DlEnd.maxRetriesThrown, 1, []⟩ := by
  have hcond : (env.urlIsReplicateDelivery && decide (env.alt 2 = DlOutcome.ok200)) = false := by
    rcases halt with h1 | h1
    · simp [h1]
    · simp [h1]
  rw [downloadLoop, dif_pos (by omega), hp]
  simp only [hcond, Bool.false_eq_true, if_false]
  rw [if_neg (by omega)]

/-- A failed iteration: either the primary request came back with a non-200
status, or it threw and the alternate-host path did not produce a 200. -/
def iterFails (env : ArchiveEnv) (k : Nat) : Prop :=
  (∃ c, env.primary k = DlOutcome.status c) ∨
    (env.primary k = DlOutcome.thrown ∧
      (env.urlIsReplicateDelivery = false ∨ env.alt k ≠ DlOutcome.ok200))

theorem downloadLoop_fail_step (env : ArchiveEnv) (rc : Nat) (h : rc + 1 < 3)
    (hf : iterFails env rc) :
    downloadLoop env rc =
      ⟨(downloadLoop env (rc + 1)).outcome, 1 + (downloadLoop env (rc + 1)).iters,
       2000 :: (downloadLoop env (rc + 1)).sleeps⟩ := by
  rcases hf with ⟨c, hc⟩ | ⟨hp, halt⟩
  · exact downloadLoop_status env rc c (by omega) hc
  · exact downloadLoop_thrown_retry env rc h hp halt

theorem downloadLoop_iters_succ (env : ArchiveEnv) (k : Nat) (hk : k < 3) :
    (downloadLoop env k).iters ≤ 1 + (downloadLoop env (k + 1)).iters := by
  rw [downloadLoop, dif_pos hk]
  rcases hp : env.primary k with _ | c | _
  · simp
  · simp
  · by_cases hd : (env.urlIsReplicateDelivery && decide (env.alt k = DlOutcome.ok200)) = true
    · simp [hd]
    · simp only [Bool.not_eq_true] at hd
      simp only [hd, Bool.false_eq_true, if_false]
      by_cases hlt : k + 1 < 3
      · rw [if_pos hlt]
      · rw [if_neg hlt]
        simp

/-- Claim C7: (i) a download that fails on the first two attempts and
succeeds on the third makes exactly 3 loop attempts with a 2000 ms backoff
after each of the two failures and — the written file existing with
non-zero size — returns the local URL; (ii) the loop never runs more than
3 attempts; (iii) a local URL is returned only when the post-write
verification passed (file accessible, non-zero size); (iv) when no attempt
yields the bytes, the archiver raises instead of producing a result. -/
theorem C7_archiver_retry :
    (∀ env : ArchiveEnv,
       env.urlHasThumbPath = false →
       iterFails env 0 → iterFails env 1 → env.primary 2 = DlOutcome.ok200 →
       env.writeOk = true → env.accessOk = true → 0 < env.statSize →
       downloadLoop env 0 = ⟨DlEnd.gotOk, 3, [2000, 2000]⟩ ∧
       downloadAndSaveImage env = Except.ok SaveResult.localUrl) ∧
    (∀ env : ArchiveEnv, (downloadLoop env 0).iters ≤ 3) ∧
    (∀ env : ArchiveEnv, downloadAndSaveImage env = Except.ok SaveResult.localUrl →
       env.accessOk = true ∧ 0 < env.statSize) ∧
    (∀ env : ArchiveEnv, env.urlHasThumbPath = false →
       iterFails env 0 → iterFails env 1 → iterFails env 2 →
       ∃ m, downloadAndSaveImage env = Except.error m) := by
  have hloop3 : ∀ env : ArchiveEnv, iterFails env 0 → iterFails env 1 →
      env.primary 2 = DlOutcome.ok200 →
      downloadLoop env 0 = ⟨DlEnd.gotOk, 3, [2000, 2000]⟩ := by
    intro env h0 h1 h2
    rw [downloadLoop_fail_step env 0 (by omega) h0,
      downloadLoop_fail_step env 1 (by omega) h1,
      downloadLoop_ok env 2 (by omega) h2]
    rfl
  refine ⟨?_, ?_, ?_, ?_⟩
  · intro env hth h0 h1 h2 hw ha hs
    have hl := hloop3 env h0 h1 h2
    refine ⟨hl, ?_⟩
    rw [downloadAndSaveImage, if_neg (by simp [hth]), hl]
    simp only [hw, ha, Bool.not_true, Bool.false_eq_true, if_false]
    rw [if_neg (by omega)]
  · intro env
    have e3 : (downloadLoop env 3).iters = 0 := by
      rw [downloadLoop_ge env 3 (by omega)]
    have i2 := downloadLoop_iters_succ env 2 (by omega)
    have i1 := downloadLoop_iters_succ env 1 (by omega)
    have i0 := downloadLoop_iters_succ env 0 (by omega)
    simp only [show (2 : Nat) + 1 = 3 from rfl, show (1 : Nat) + 1 = 2 from rfl,
      show (0 : Nat) + 1 = 1 from rfl] at i0 i1 i2
    omega
  · intro env h
    rw [downloadAndSaveImage] at h
    by_cases hfast : (env.urlHasThumbPath && env.localThumbExists) = true
    · rw [if_pos hfast] at h
      exact absurd h (by simp)
    · rw [if_neg hfast] at h
      rcases ho : (downloadLoop env 0).outcome with _ | _ | _ <;> rw [ho] at h
      · by_cases hw : env.writeOk = true
        · rw [hw] at h
          simp only [Bool.not_true, Bool.false_eq_true, if_false] at h
          by_cases hac : env.accessOk = true
          · rw [hac] at h
            simp only [Bool.not_true, Bool.false_eq_true, if_false] at h
            by_cases hsz : env.statSize = 0
            · rw [if_pos hsz] at h
              exact absurd h (by simp)
            · exact ⟨hac, by omega⟩
          · rw [Bool.eq_false_iff.mpr hac] at h
            simp at h
        · rw [Bool.eq_false_iff.mpr hw] at h
          simp at h
      · exact absurd h (by simp)
      · exact absurd h (by simp)
  · intro env hth h0 h1 h2
    have hl : (downloadLoop env 0).outcome = DlEnd.maxRetriesThrown ∨
        (downloadLoop env 0).outcome = DlEnd.statusExhausted := by
      rcases h2 with ⟨c, hc⟩ | ⟨hp, halt⟩
      · right
        rw [downloadLoop_fail_step env 0 (by omega) h0,
          downloadLoop_fail_step env 1 (by omega) h1,
          downloadLoop_status env 2 c (by omega) hc,
          downloadLoop_ge env 3 (by omega)]
      · left
        rw [downloadLoop_fail_step env 0 (by omega) h0,
          downloadLoop_fail_step env 1 (by omega) h1,
          downloadLoop_thrown_last env hp halt]
    rcases hl with hl | hl
    · exact ⟨"Max retries reached for download", by
        rw [downloadAndSaveImage, if_neg (by simp [hth]), hl]⟩
    · exact ⟨"Failed to download image after 3 attempts", by
        rw [downloadAndSaveImage, if_neg (by simp [hth]), hl]⟩

/-- Witness for C7: two non-200 statuses then a 200 yields the local URL
after 3 attempts with two 2-second backoffs; three thrown requests without
a usable alternate host raise. -/
theorem C7_archiver_retry_witness :
    (downloadLoop
        ⟨false, false, false,
         fun k => if k < 2 then DlOutcome.status 503 else DlOutcome.ok200,
         fun _ => DlOutcome.thrown, true, true, 10⟩ 0
      = ⟨DlEnd.gotOk, 3, [2000, 2000]⟩ ∧
     downloadAndSaveImage
        ⟨false, false, false,
         fun k => if k < 2 then DlOutcome.status 503 else DlOutcome.ok200,
         fun _ => DlOutcome.thrown, true, true, 10⟩
      = Except.ok SaveResult.localUrl) ∧
    (∃ m, downloadAndSaveImage
        ⟨false, false, false, fun _ => DlOutcome.thrown,
         fun _ => DlOutcome.thrown, true, true, 10⟩
      = Except.error m) :=
  ⟨C7_archiver_retry.1
      ⟨false, false, false,
       fun k => if k < 2 then DlOutcome.status 503 else DlOutcome.ok200,
       fun _ => DlOutcome.thrown, true, true, 10⟩
      rfl (Or.inl ⟨503, rfl⟩) (Or.inl ⟨503, rfl⟩) rfl rfl rfl (by decide),
   C7_archiver_retry.2.2.2
      ⟨false, false, false, fun _ => DlOutcome.thrown,
       fun _ => DlOutcome.thrown, true, true, 10⟩
      rfl (Or.inr ⟨rfl, Or.inl rfl⟩) (Or.inr ⟨rfl, Or.inl rfl⟩)
      (Or.inr ⟨rfl, Or.inl rfl⟩)⟩

end SkodaBackend
